import Mathlib

/-!
Shallow embedding of the `spur-ai-live-chat` backend core: the message-flow
coordinator (`ChatService.processMessage`, `ChatService.getConversationHistory`),
the completion step (`LLMService.generateResponse`), the validation helpers
(`validateSessionId`, `isValidUUID`, `sanitizeErrorMessage`), the two chat HTTP
route handlers, and the layered rate-limiter configuration.

The Record Store (Prisma) is modelled as an explicit `Store` value threaded
through every operation; each storage call can fail, driven by a `script` of
per-call outcomes (`none` = the call succeeds, `some m` = the call throws an
error whose message is `m`).  The Completion Provider is a function argument
returning either a thrown error or an optional content string, mirroring the
OpenAI call whose `choices[0].message.content` may be missing.
-/

namespace SpurChat

/-- JS `String.prototype.trim`: strip whitespace from both ends. -/
def jsTrim (s : String) : String :=
  String.mk (((s.data.dropWhile Char.isWhitespace).reverse.dropWhile Char.isWhitespace).reverse)

/-- JS `String.prototype.toLowerCase` restricted to the ASCII messages the
code compares against. -/
def jsLower (s : String) : String := String.mk (s.data.map Char.toLower)

/-- `needle` is an initial segment of `haystack`. -/
def leadsWith : List Char → List Char → Bool
  | [], _ => true
  | _ :: _, [] => false
  | a :: as, b :: bs => a == b && leadsWith as bs

/-- `needle` occurs contiguously somewhere in `haystack`. -/
def occursIn (needle haystack : List Char) : Bool :=
  leadsWith needle haystack ||
    match haystack with
    | [] => false
    | _ :: rest => occursIn needle rest

/-- JS `haystack.includes(needle)`. -/
def includesSubstr (haystack needle : String) : Bool :=
  occursIn needle.data haystack.data

/-! ### `utils/validation.ts` -/

/-- Split a character list on `-`, as the UUID grammar needs. -/
def splitDash : List Char → List (List Char)
  | [] => [[]]
  | c :: rest =>
    if c = '-' then [] :: splitDash rest
    else
      match splitDash rest with
      | h :: t => (c :: h) :: t
      | [] => [[c]]

/-- Hexadecimal digit test used by the UUID format check. -/
def isHexChar (c : Char) : Bool :=
  c.isDigit || (('a' ≤ c) && (c ≤ 'f')) || (('A' ≤ c) && (c ≤ 'F'))

/-- `isValidUUID` from `utils/validation.ts`, i.e. the `uuid` package `validate`
regex: `8-4-4-4-12` hex groups with version digit `1`-`5` and variant
`[89abAB]`, or the nil UUID. -/
def isValidUUID (s : String) : Bool :=
  if s = "00000000-0000-0000-0000-000000000000" then true
  else
    match splitDash s.data with
    | [a, b, c, d, e] =>
      a.length = 8 && b.length = 4 && c.length = 4 && d.length = 4 && e.length = 12 &&
      a.all isHexChar && b.all isHexChar && c.all isHexChar &&
      d.all isHexChar && e.all isHexChar &&
      (match c with
       | v :: _ => ['1', '2', '3', '4', '5'].contains v
       | [] => false) &&
      (match d with
       | v :: _ => ['8', '9', 'a', 'b', 'A', 'B'].contains v
       | [] => false)
    | _ => false

/-- `validateSessionId` from `utils/validation.ts`: throws
`"Session ID is required"` on a falsy input and
`"Invalid session ID format"` on a non-UUID input. -/
def validateSessionId (sessionId : String) : Except String Unit :=
  if sessionId = "" then Except.error "Session ID is required"
  else if isValidUUID sessionId then Except.ok ()
  else Except.error "Invalid session ID format"

/-- `sanitizeErrorMessage` from `utils/validation.ts`.  The `error : unknown`
argument is modelled as `Option String`: `some m` is an `Error` with message
`m`, `none` is a non-`Error` value. -/
def sanitizeErrorMessage (error : Option String) (isProduction : Bool) : String :=
  if isProduction then
    match error with
    | some em =>
      let message := jsLower em
      if includesSubstr message "not found" || includesSubstr message "conversation not found" then
        "Conversation not found"
      else if includesSubstr message "required" || includesSubstr message "cannot be empty" then
        em
      else if includesSubstr message "api key" || includesSubstr message "invalid" then
        "Service configuration error"
      else if includesSubstr message "rate limit" then
        "Rate limit exceeded. Please try again later."
      else if includesSubstr message "database" || includesSubstr message "prisma" then
        "Database error. Please try again later."
      else
        "An unexpected error occurred. Please try again later."
    | none => "An unexpected error occurred. Please try again later."
  else
    match error with
    | some em => em
    | none => "An unexpected error occurred"

/-! ### `services/llm.service.ts` -/

inductive Sender where
  | user
  | ai
deriving DecidableEq, Repr

inductive Role where
  | system
  | user
  | assistant
deriving DecidableEq, Repr

/-- The role-tagged wire shape passed to the Completion Provider. -/
structure Turn where
  role : Role
  content : String
deriving DecidableEq, Repr

/-- A history entry after the coordinator coerced the stored sender. -/
structure TypedMsg where
  sender : Sender
  text : String
deriving DecidableEq, Repr

/-- The fixed system persona prompt from `llm.service.ts`. -/
def SYSTEM_PROMPT : String :=
  "You are a helpful and friendly customer support agent for an ecommerce store. Your goal is to assist customers with their questions and concerns in a professional, empathetic manner.\n\nStore Information:\n- Shipping: We ship to USA, India, and Europe\n- Delivery Time: 5-7 business days\n- Returns: Accepted within 14 days of purchase\n- Support Hours: Monday-Friday, 9am-6pm IST\n\nGuidelines:\n- Be concise but thorough\n- If you don\x27t know something, acknowledge it and offer to help find the answer\n- Always maintain a positive, helpful tone\n- Use the customer\x27s name if provided, otherwise use friendly language\n- For shipping/returns questions, provide clear information based on the store policies above"

def MAX_HISTORY : Nat := 10

def maxTokens : Nat := 500

/-- Outcome of one OpenAI chat-completion call: `ok content` is a response
whose `choices[0].message.content` is `content` (`none` when the choice or its
content is missing), `error` is a thrown `APIError` (401/429/5xx/...). -/
inductive ProviderResult where
  | ok (content : Option String)
  | error
deriving DecidableEq, Repr

/-- The turn sequence built inside `generateResponse`: the fixed system turn
followed by `conversationHistory.slice(-MAX_HISTORY)` with `user` senders
mapped to the user role and every other sender to the assistant role. -/
def buildMessages (conversationHistory : List TypedMsg) : List Turn :=
  Turn.mk Role.system SYSTEM_PROMPT ::
    (conversationHistory.drop (conversationHistory.length - MAX_HISTORY)).map
      (fun msg => Turn.mk (if msg.sender = Sender.user then Role.user else Role.assistant) msg.text)

/-- Fallback returned when the response carries no usable content. -/
def FALLBACK_EMPTY : String := "Sorry, I was unable to generate a response. Please try again."

/-- Fallback returned when the provider call throws. -/
def FALLBACK_UNAVAILABLE : String :=
  "Our support agent is temporarily unavailable. Please try again shortly."

/-- `LLMService.generateResponse`: never throws; a thrown provider error maps
to `FALLBACK_UNAVAILABLE`, a missing or empty (falsy) content maps to
`FALLBACK_EMPTY`, and otherwise the content is returned trimmed. -/
def generateResponse (provider : List Turn → ProviderResult)
    (conversationHistory : List TypedMsg) : String :=
  match provider (buildMessages conversationHistory) with
  | ProviderResult.error => FALLBACK_UNAVAILABLE
  | ProviderResult.ok none => FALLBACK_EMPTY
  | ProviderResult.ok (some content) =>
    if content = "" then FALLBACK_EMPTY else jsTrim content

/-! ### The Record Store -/

/-- A persisted `Message` row.  `sender` is kept as the raw stored string so
that the defensive sender coercion in the service layer is observable. -/
structure StoredMsg where
  id : Nat
  conversationId : String
  sender : String
  text : String
deriving DecidableEq, Repr

/-- The Record Store: conversation ids, messages in creation-time order
(appends always go at the end), and the id counter for new messages. -/
structure Store where
  conversations : List String
  messages : List StoredMsg
  nextId : Nat
deriving DecidableEq, Repr

/-- Store plus the failure script: entry `none` lets the next storage call
succeed, `some m` makes it throw an error with message `m`. -/
structure DbState where
  store : Store
  script : List (Option String)
deriving DecidableEq, Repr

/-- Run one storage call under the failure script. -/
def dbCall {α : Type} (run : Store → α × Store) (σ : DbState) :
    Except String α × DbState :=
  match σ.script with
  | some m :: rest => (Except.error m, DbState.mk σ.store rest)
  | none :: rest => (Except.ok (run σ.store).1, DbState.mk (run σ.store).2 rest)
  | [] => (Except.ok (run σ.store).1, DbState.mk (run σ.store).2 [])

/-- `prisma.conversation.findUnique({where: {id}})` projected to existence. -/
def findConversation (id : String) (st : Store) : Bool × Store :=
  (st.conversations.contains id, st)

/-- `prisma.conversation.create({})`; the generated identity is supplied by the
caller as `freshId` (Prisma generates a fresh UUID). -/
def createConversation (freshId : String) (st : Store) : String × Store :=
  (freshId, Store.mk (st.conversations ++ [freshId]) st.messages st.nextId)

/-- `prisma.message.create({data: {conversationId, sender, text}})`. -/
def createMessage (conversationId sender text : String) (st : Store) : Unit × Store :=
  ((), Store.mk st.conversations
    (st.messages ++ [StoredMsg.mk st.nextId conversationId sender text])
    (st.nextId + 1))

/-- `prisma.message.findMany({where: {conversationId}, orderBy: {createdAt: asc}})`:
the creation-ordered message list filtered to one conversation. -/
def findMessages (conversationId : String) (st : Store) : List StoredMsg :=
  st.messages.filter (fun m => m.conversationId == conversationId)

/-! ### `services/chat.service.ts` -/

structure ChatMessage where
  message : Option String
  sessionId : Option String
deriving DecidableEq, Repr

structure ChatResponse where
  reply : String
  sessionId : String
deriving DecidableEq, Repr

def MAX_MESSAGE_LENGTH : Nat := 5000

/-- The defensive sender coercion
`msg.sender === 'user' || msg.sender === 'ai' ? msg.sender : 'ai'`. -/
def coerceSender (s : String) : Sender :=
  if s = "user" then Sender.user
  else if s = "ai" then Sender.ai
  else Sender.ai

/-- The typed-history conversion applied to the loaded rows. -/
def toTyped (history : List StoredMsg) : List TypedMsg :=
  history.map (fun msg => TypedMsg.mk (coerceSender msg.sender) msg.text)

/-- The substrings whose presence makes `processMessage`'s catch block
re-throw an error as-is instead of wrapping it. -/
def rethrowable (m : String) : Bool :=
  includesSubstr m "required" || includesSubstr m "cannot be empty" ||
  includesSubstr m "exceeds maximum" || includesSubstr m "API key" ||
  includesSubstr m "Rate limit"

/-- The catch block of `processMessage`: re-throw recognizable validation/LLM
messages, wrap everything else into the opaque database-error message. -/
def wrapStorage (r : Except String ChatResponse × DbState) :
    Except String ChatResponse × DbState :=
  match r with
  | (Except.ok a, σ) => (Except.ok a, σ)
  | (Except.error m, σ) =>
    if rethrowable m then (Except.error m, σ)
    else (Except.error "Database error. Please try again later.", σ)

/-- The get-or-create block of `processMessage`: truthy `sessionId` is format
validated and looked up, a missing conversation (or falsy `sessionId`) leads
to creating a fresh one. -/
def resolveConversation (freshId : String) (sessionId : Option String) (σ : DbState) :
    Except String String × DbState :=
  match sessionId with
  | none => dbCall (createConversation freshId) σ
  | some sid =>
    if sid = "" then dbCall (createConversation freshId) σ
    else
      match validateSessionId sid with
      | Except.error m => (Except.error m, σ)
      | Except.ok _ =>
        match dbCall (findConversation sid) σ with
        | (Except.error m, σ1) => (Except.error m, σ1)
        | (Except.ok found, σ1) =>
          if found then (Except.ok sid, σ1)
          else dbCall (createConversation freshId) σ1

/-- The body of the `try` block of `processMessage`: resolve the conversation,
persist the user turn, load and type the history, invoke the completion step,
persist the AI turn, return the reply with the conversation identity. -/
def processMessageTry (provider : List Turn → ProviderResult) (freshId : String)
    (sessionId : Option String) (trimmedMessage : String) (σ : DbState) :
    Except String ChatResponse × DbState :=
  match resolveConversation freshId sessionId σ with
  | (Except.error m, σ1) => (Except.error m, σ1)
  | (Except.ok conversationId, σ1) =>
    match dbCall (createMessage conversationId "user" trimmedMessage) σ1 with
    | (Except.error m, σ2) => (Except.error m, σ2)
    | (Except.ok _, σ2) =>
      match dbCall (fun st => (findMessages conversationId st, st)) σ2 with
      | (Except.error m, σ3) => (Except.error m, σ3)
      | (Except.ok history, σ3) =>
        match dbCall (createMessage conversationId "ai"
            (generateResponse provider (toTyped history))) σ3 with
        | (Except.error m, σ4) => (Except.error m, σ4)
        | (Except.ok _, σ4) =>
          (Except.ok (ChatResponse.mk (generateResponse provider (toTyped history))
            conversationId), σ4)

/-- `ChatService.processMessage`: message validation before any storage or
network I/O, then the try body under the catch-block wrapping. -/
def processMessage (provider : List Turn → ProviderResult) (freshId : String)
    (input : ChatMessage) (σ : DbState) : Except String ChatResponse × DbState :=
  match input.message with
  | none => (Except.error "Message is required and must be a string", σ)
  | some message =>
    if message = "" then (Except.error "Message is required and must be a string", σ)
    else if (jsTrim message).length = 0 then (Except.error "Message cannot be empty", σ)
    else if (jsTrim message).length > MAX_MESSAGE_LENGTH then
      (Except.error ("Message exceeds maximum length of " ++
        toString MAX_MESSAGE_LENGTH ++ " characters"), σ)
    else wrapStorage (processMessageTry provider freshId input.sessionId (jsTrim message) σ)

/-- One element of the client-facing history view. -/
structure HistoryMsg where
  id : Nat
  sender : Sender
  text : String
deriving DecidableEq, Repr

structure ConversationHistory where
  messages : List HistoryMsg
  sessionId : String
deriving DecidableEq, Repr

/-- The catch block of `getConversationHistory`: re-throw not-found, wrap the
rest. -/
def wrapHistoryError (r : Except String ConversationHistory × DbState) :
    Except String ConversationHistory × DbState :=
  match r with
  | (Except.ok a, σ) => (Except.ok a, σ)
  | (Except.error m, σ) =>
    if includesSubstr m "not found" then (Except.error m, σ)
    else (Except.error "Failed to fetch conversation history", σ)

/-- `ChatService.getConversationHistory`: session format validation, existence
check with a not-found throw and no auto-creation, then the full untruncated
message list with defensive sender coercion. -/
def getConversationHistory (sessionId : String) (σ : DbState) :
    Except String ConversationHistory × DbState :=
  match validateSessionId sessionId with
  | Except.error m => (Except.error m, σ)
  | Except.ok _ =>
    wrapHistoryError
      (match dbCall (findConversation sessionId) σ with
       | (Except.error m, σ1) => (Except.error m, σ1)
       | (Except.ok found, σ1) =>
         if found then
           match dbCall (fun st => (findMessages sessionId st, st)) σ1 with
           | (Except.error m, σ2) => (Except.error m, σ2)
           | (Except.ok msgs, σ2) =>
             (Except.ok (ConversationHistory.mk
               (msgs.map (fun m => HistoryMsg.mk m.id (coerceSender m.sender) m.text))
               sessionId), σ2)
         else (Except.error "Conversation not found", σ1))

/-! ### `routes/chat.routes.ts` -/

/-- An HTTP outcome: a 200 JSON payload or a status code with an error body. -/
inductive RouteResult (α : Type) where
  | ok (payload : α)
  | err (status : Nat) (error : String)
deriving DecidableEq, Repr

/-- Status-code selection of the `POST /chat/message` catch block. -/
def postMessageStatus (m : String) : Nat :=
  let msg := jsLower m
  if includesSubstr msg "required" || includesSubstr msg "cannot be empty" ||
      includesSubstr msg "invalid session" then 400
  else if includesSubstr msg "api key" || includesSubstr msg "rate limit" then 503
  else if includesSubstr msg "exceeds maximum" then 400
  else 500

/-- Status-code selection of the `GET /chat/history/:sessionId` catch block
(these checks are on the raw, non-lowercased message). -/
def historyStatus (m : String) : Nat :=
  if includesSubstr m "not found" || includesSubstr m "required" ||
      includesSubstr m "Invalid session ID format" then 404
  else 500

/-- The `POST /chat/message` handler: session format validation when the body
`sessionId` is truthy, then `processMessage`, with errors sanitized and
status-coded by the catch block. -/
def postChatMessage (isProduction : Bool) (provider : List Turn → ProviderResult)
    (freshId : String) (input : ChatMessage) (σ : DbState) :
    RouteResult ChatResponse × DbState :=
  let validationError : Option String :=
    match input.sessionId with
    | some sid =>
      if sid = "" then none
      else
        match validateSessionId sid with
        | Except.error m => some m
        | Except.ok _ => none
    | none => none
  match validationError with
  | some m =>
    (RouteResult.err (postMessageStatus m) (sanitizeErrorMessage (some m) isProduction), σ)
  | none =>
    match processMessage provider freshId input σ with
    | (Except.ok r, σ1) => (RouteResult.ok r, σ1)
    | (Except.error m, σ1) =>
      (RouteResult.err (postMessageStatus m) (sanitizeErrorMessage (some m) isProduction), σ1)

/-- The `GET /chat/history/:sessionId` handler. -/
def getChatHistory (isProduction : Bool) (sessionId : String) (σ : DbState) :
    RouteResult ConversationHistory × DbState :=
  match validateSessionId sessionId with
  | Except.error m =>
    (RouteResult.err (historyStatus m) (sanitizeErrorMessage (some m) isProduction), σ)
  | Except.ok _ =>
    match getConversationHistory sessionId σ with
    | (Except.ok r, σ1) => (RouteResult.ok r, σ1)
    | (Except.error m, σ1) =>
      (RouteResult.err (historyStatus m) (sanitizeErrorMessage (some m) isProduction), σ1)

/-! ### `middleware/rateLimiter.ts` and the wiring in `index.ts` -/

/-- The request data the limiter configuration can observe.  A missing
`req.ip` is modelled as the empty string (falsy in JS). -/
structure RequestInfo where
  method : String
  ip : String
  bodySessionId : Option String

/-- JS `a || b` on strings. -/
def jsOrString (a b : String) : String := if a = "" then b else a

/-- One `express-rate-limit` configuration. -/
structure LimiterConfig where
  windowMs : Nat
  max : Nat
  message : String
  standardHeaders : Bool
  legacyHeaders : Bool
  keyGenerator : RequestInfo → String
  skip : RequestInfo → Bool
  skipSuccessfulRequests : Bool

/-- General API limiter: 100 requests per IP per 15 minutes, on every route. -/
def apiLimiter : LimiterConfig :=
  LimiterConfig.mk (15 * 60 * 1000) 100
    "Too many requests from this IP, please try again later."
    true false (fun req => req.ip) (fun _ => false) false

/-- Chat limiter: 50 chat requests per IP per 15 minutes. -/
def chatLimiter : LimiterConfig :=
  LimiterConfig.mk (15 * 60 * 1000) 50
    "Too many chat requests, please try again later."
    true false (fun req => req.ip) (fun _ => false) false

/-- Per-session limiter: 20 requests per 15 minutes keyed by
`req.body.sessionId || req.ip || 'unknown'`, skipped on GET requests. -/
def sessionLimiter : LimiterConfig :=
  LimiterConfig.mk (15 * 60 * 1000) 20
    "Too many requests for this session. Please wait before sending another message."
    true false
    (fun req => jsOrString (jsOrString (req.bodySessionId.getD "") req.ip) "unknown")
    (fun req => req.method == "GET") false

/-- Daily limiter: 200 requests per IP per 24 hours. -/
def dailyLimiter : LimiterConfig :=
  LimiterConfig.mk (24 * 60 * 60 * 1000) 200
    "Daily request limit exceeded. Please try again tomorrow."
    true false (fun req => req.ip) (fun _ => false) false

/-- Limiter layers crossed by `POST /chat/message`, in evaluation order:
`app.use(apiLimiter)` then `router.use(dailyLimiter)`, `router.use(chatLimiter)`,
`router.use(sessionLimiter)`. -/
def chatMessagePipeline : List LimiterConfig :=
  [apiLimiter, dailyLimiter, chatLimiter, sessionLimiter]

/-- Limiter layers crossed by `GET /chat/history/:sessionId` (the same router
chain; the session layer skips itself on GET). -/
def chatHistoryPipeline : List LimiterConfig :=
  [apiLimiter, dailyLimiter, chatLimiter, sessionLimiter]

/-- Limiter layers crossed by `GET /health`: only the app-level general cap. -/
def healthPipeline : List LimiterConfig :=
  [apiLimiter]

/-! ### Concrete fixtures used by counterexamples and witnesses -/

/-- A provider that answers every call with the fixed text `"Hello!"`. -/
def okProvider : List Turn → ProviderResult :=
  fun _ => ProviderResult.ok (some "Hello!")

/-- A provider whose successful response content is a single space:
truthy in JS, so it escapes the falsy-content fallback, but trims to `""`. -/
def wsProvider : List Turn → ProviderResult :=
  fun _ => ProviderResult.ok (some " ")

/-- A provider that always throws. -/
def errProvider : List Turn → ProviderResult :=
  fun _ => ProviderResult.error

/-- An empty store. -/
def emptyStore : Store := Store.mk [] [] 0

/-! ## Helper lemmas -/

theorem dbCall_ok {α : Type} {run : Store → α × Store} {σ : DbState} {a : α} {σ' : DbState}
    (h : dbCall run σ = (Except.ok a, σ')) :
    a = (run σ.store).1 ∧ σ'.store = (run σ.store).2 := by
  rcases σ with ⟨st, script⟩
  rcases script with _ | ⟨o, rest⟩
  · simp only [dbCall, Prod.mk.injEq, Except.ok.injEq] at h
    obtain ⟨h1, h2⟩ := h
    subst h2
    exact ⟨h1.symm, rfl⟩
  · rcases o with _ | m
    · simp only [dbCall, Prod.mk.injEq, Except.ok.injEq] at h
      obtain ⟨h1, h2⟩ := h
      subst h2
      exact ⟨h1.symm, rfl⟩
    · simp only [dbCall, Prod.mk.injEq] at h
      exact absurd h.1 (by simp)

theorem dbCall_error_mem {α : Type} {run : Store → α × Store} {σ : DbState} {m : String}
    {σ' : DbState} (h : dbCall run σ = (Except.error m, σ')) :
    some m ∈ σ.script ∧ σ'.store = σ.store := by
  rcases σ with ⟨st, script⟩
  rcases script with _ | ⟨o, rest⟩
  · simp only [dbCall, Prod.mk.injEq] at h
    exact absurd h.1 (by simp)
  · rcases o with _ | m'
    · simp only [dbCall, Prod.mk.injEq] at h
      exact absurd h.1 (by simp)
    · simp only [dbCall, Prod.mk.injEq, Except.error.injEq] at h
      obtain ⟨h1, h2⟩ := h
      subst h1
      subst h2
      exact ⟨List.mem_cons_self _ _, rfl⟩

theorem dbCall_script_mono {α : Type} {run : Store → α × Store} {σ : DbState}
    {e : Except String α} {σ' : DbState} (h : dbCall run σ = (e, σ')) :
    ∀ m, some m ∈ σ'.script → some m ∈ σ.script := by
  rcases σ with ⟨st, script⟩
  rcases script with _ | ⟨o, rest⟩
  · simp only [dbCall, Prod.mk.injEq] at h
    intro m hm
    rw [← h.2] at hm
    exact hm
  · rcases o with _ | m'
    · simp only [dbCall, Prod.mk.injEq] at h
      intro m hm
      rw [← h.2] at hm
      exact List.mem_cons_of_mem _ hm
    · simp only [dbCall, Prod.mk.injEq] at h
      intro m hm
      rw [← h.2] at hm
      exact List.mem_cons_of_mem _ hm

theorem wrapStorage_ok {x : Except String ChatResponse × DbState} {r : ChatResponse}
    {σf : DbState} (h : wrapStorage x = (Except.ok r, σf)) : x = (Except.ok r, σf) := by
  rcases x with ⟨e, σ⟩
  cases e with
  | ok a => simpa [wrapStorage] using h
  | error m =>
    simp only [wrapStorage] at h
    split at h <;> simp at h

theorem isValidUUID_ne_empty {s : String} (h : isValidUUID s = true) : s ≠ "" := by
  intro he
  subst he
  simp [isValidUUID, splitDash] at h

/-- Inversion of a successful `processMessage` run: the message was present,
some conversation id was resolved, the reply is the completion step applied to
a loaded history ending with the just-persisted user turn, and the final
message list ends with the persisted AI turn. -/
theorem processMessage_ok_inv
    {provider : List Turn → ProviderResult} {freshId : String} {input : ChatMessage}
    {σ σf : DbState} {r : ChatResponse}
    (h : processMessage provider freshId input σ = (Except.ok r, σf)) :
    ∃ (msg cid : String) (A B : List StoredMsg) (n k : Nat),
      input.message = some msg ∧
      r.sessionId = cid ∧
      r.reply = generateResponse provider
        (toTyped (A ++ [StoredMsg.mk n cid "user" (jsTrim msg)])) ∧
      σf.store.messages = B ++ [StoredMsg.mk k cid "ai" r.reply] ∧
      StoredMsg.mk n cid "user" (jsTrim msg) ∈ B := by
  rcases input with ⟨imsg, isid⟩
  cases imsg with
  | none => simp [processMessage] at h
  | some msg =>
    simp only [processMessage] at h
    by_cases hm0 : msg = ""
    · simp [hm0] at h
    · rw [if_neg hm0] at h
      by_cases hm1 : (jsTrim msg).length = 0
      · simp [hm1] at h
      · rw [if_neg hm1] at h
        by_cases hm2 : (jsTrim msg).length > MAX_MESSAGE_LENGTH
        · simp [hm2] at h
        · rw [if_neg hm2] at h
          have htry := wrapStorage_ok h
          unfold processMessageTry at htry
          rcases h1 : resolveConversation freshId isid σ with ⟨e1, σ1⟩
          rw [h1] at htry
          cases e1 with
          | error m => simp at htry
          | ok cid =>
            dsimp only at htry
            rcases h2 : dbCall (createMessage cid "user" (jsTrim msg)) σ1 with ⟨e2, σ2⟩
            rw [h2] at htry
            cases e2 with
            | error m => simp at htry
            | ok u =>
              dsimp only at htry
              rcases h3 : dbCall (fun st => (findMessages cid st, st)) σ2 with ⟨e3, σ3⟩
              rw [h3] at htry
              cases e3 with
              | error m => simp at htry
              | ok history =>
                dsimp only at htry
                rcases h4 : dbCall (createMessage cid "ai"
                    (generateResponse provider (toTyped history))) σ3 with ⟨e4, σ4⟩
                rw [h4] at htry
                cases e4 with
                | error m => simp at htry
                | ok u2 =>
                  dsimp only at htry
                  simp only [Prod.mk.injEq, Except.ok.injEq] at htry
                  obtain ⟨hr, hσ⟩ := htry
                  subst hσ
                  subst hr
                  obtain ⟨_, hst2⟩ := dbCall_ok h2
                  obtain ⟨hhist, hst3⟩ := dbCall_ok h3
                  obtain ⟨_, hst4⟩ := dbCall_ok h4
                  refine ⟨msg, cid,
                    σ1.store.messages.filter (fun m => m.conversationId == cid),
                    σ2.store.messages, σ1.store.nextId, σ2.store.nextId,
                    rfl, rfl, ?_, ?_, ?_⟩
                  · have hfm : findMessages cid σ2.store
                        = σ1.store.messages.filter (fun m => m.conversationId == cid)
                          ++ [StoredMsg.mk σ1.store.nextId cid "user" (jsTrim msg)] := by
                      rw [hst2]
                      simp [findMessages, createMessage, List.filter_append]
                    simp only [hhist]
                    rw [hfm]
                  · rw [hst4, hst3]
                    simp [createMessage, hhist, hst3]
                  · rw [hst2]
                    simp [createMessage]

/-! ## Claim theorems -/

/-- C2: in every successful `send` call, the trimmed user message is persisted
as a `user` Message, and the history loaded from storage and handed to the
Completion Provider contains that just-persisted user message as a turn. -/
theorem send_user_turn_in_provider_history
    {provider : List Turn → ProviderResult} {freshId : String} {input : ChatMessage}
    {σ σf : DbState} {r : ChatResponse}
    (h : processMessage provider freshId input σ = (Except.ok r, σf)) :
    ∃ hist : List TypedMsg,
      r.reply = generateResponse provider hist ∧
      TypedMsg.mk Sender.user (jsTrim (input.message.getD "")) ∈ hist ∧
      ∃ sm ∈ σf.store.messages, sm.conversationId = r.sessionId ∧ sm.sender = "user" ∧
        sm.text = jsTrim (input.message.getD "") := by
  obtain ⟨msg, cid, A, B, n, k, hmsg, hsid, hreply, hmsgs, hmem⟩ := processMessage_ok_inv h
  rw [hmsg]
  refine ⟨toTyped (A ++ [StoredMsg.mk n cid "user" (jsTrim msg)]), hreply, ?_, ?_⟩
  · simp [toTyped, coerceSender]
  · refine ⟨StoredMsg.mk n cid "user" (jsTrim msg), ?_, hsid.symm, rfl, rfl⟩
    rw [hmsgs]
    exact List.mem_append_left _ hmem

/-- Witness for C2: a concrete successful send; the provider history contains
the user turn `"hi"` and the store holds the persisted user message. -/
theorem send_user_turn_in_provider_history_witness :
    ∃ hist : List TypedMsg,
      (ChatResponse.mk "Hello!" "fresh").reply = generateResponse okProvider hist ∧
      TypedMsg.mk Sender.user (jsTrim ((ChatMessage.mk (some "hi") none).message.getD "")) ∈ hist ∧
      ∃ sm ∈ (DbState.mk (Store.mk ["fresh"]
          [StoredMsg.mk 0 "fresh" "user" "hi", StoredMsg.mk 1 "fresh" "ai" "Hello!"] 2)
          []).store.messages,
        sm.conversationId = (ChatResponse.mk "Hello!" "fresh").sessionId ∧
        sm.sender = "user" ∧
        sm.text = jsTrim ((ChatMessage.mk (some "hi") none).message.getD "") :=
  @send_user_turn_in_provider_history okProvider "fresh" (ChatMessage.mk (some "hi") none)
    (DbState.mk emptyStore [])
    (DbState.mk (Store.mk ["fresh"]
      [StoredMsg.mk 0 "fresh" "user" "hi", StoredMsg.mk 1 "fresh" "ai" "Hello!"] 2) [])
    (ChatResponse.mk "Hello!" "fresh") (by rfl)

/-- C9: on every successful `send`, whatever text the completion step produced
(fallback strings included) is persisted as the final `ai` Message of the
conversation before `send` returns. -/
theorem ai_reply_always_persisted
    {provider : List Turn → ProviderResult} {freshId : String} {input : ChatMessage}
    {σ σf : DbState} {r : ChatResponse}
    (h : processMessage provider freshId input σ = (Except.ok r, σf)) :
    (∃ hist, r.reply = generateResponse provider hist) ∧
    ∃ (pre : List StoredMsg) (k : Nat),
      σf.store.messages = pre ++ [StoredMsg.mk k r.sessionId "ai" r.reply] := by
  obtain ⟨msg, cid, A, B, n, k, hmsg, hsid, hreply, hmsgs, hmem⟩ := processMessage_ok_inv h
  exact ⟨⟨_, hreply⟩, B, k, by rw [hmsgs, hsid]⟩

/-- Witness for C9: the concrete successful send of C2 ends its message list
with the persisted AI reply. -/
theorem ai_reply_always_persisted_witness :
    (∃ hist, (ChatResponse.mk "Hello!" "fresh").reply = generateResponse okProvider hist) ∧
    ∃ (pre : List StoredMsg) (k : Nat),
      (DbState.mk (Store.mk ["fresh"]
          [StoredMsg.mk 0 "fresh" "user" "hi", StoredMsg.mk 1 "fresh" "ai" "Hello!"] 2)
          []).store.messages
        = pre ++ [StoredMsg.mk k (ChatResponse.mk "Hello!" "fresh").sessionId "ai"
            (ChatResponse.mk "Hello!" "fresh").reply] :=
  @ai_reply_always_persisted okProvider "fresh" (ChatMessage.mk (some "hi") none)
    (DbState.mk emptyStore [])
    (DbState.mk (Store.mk ["fresh"]
      [StoredMsg.mk 0 "fresh" "user" "hi", StoredMsg.mk 1 "fresh" "ai" "Hello!"] 2) [])
    (ChatResponse.mk "Hello!" "fresh") (by rfl)

/-- C5: for every stored message sequence, the turn sequence handed to the
Completion Provider is one fixed system turn followed by at most the
`MAX_HISTORY = 10` most recent stored turns in chronological order — length at
most 11, first element the system turn, sender `"user"` mapped to the user
role and every other sender to the assistant role. -/
theorem provider_turns_shape (raw : List StoredMsg) :
    (buildMessages (toTyped raw)).length ≤ MAX_HISTORY + 1 ∧
    (buildMessages (toTyped raw)).head? = some (Turn.mk Role.system SYSTEM_PROMPT) ∧
    (buildMessages (toTyped raw)).tail =
      (raw.drop (raw.length - MAX_HISTORY)).map
        (fun m => Turn.mk (if m.sender = "user" then Role.user else Role.assistant) m.text) := by
  refine ⟨?_, rfl, ?_⟩
  · simp only [buildMessages, List.length_cons, List.length_map, List.length_drop, toTyped,
      MAX_HISTORY]
    omega
  · simp only [buildMessages, List.tail_cons, toTyped, List.length_map]
    rw [← List.map_drop, List.map_map]
    refine List.map_congr_left (fun m _ => ?_)
    by_cases hm : m.sender = "user"
    · simp [Function.comp, coerceSender, hm]
    · by_cases ha : m.sender = "ai" <;> simp [Function.comp, coerceSender, hm, ha]

/-- C1 (amended): `generateResponse` never raises: a thrown provider failure
yields the fixed unavailable-fallback, missing or empty (falsy) content
yields the fixed empty-response fallback, and otherwise the reply is the
trimmed content — which is empty exactly when the provider succeeded with
whitespace-only non-empty content. -/
theorem generateResponse_fallback_contract (provider : List Turn → ProviderResult)
    (hist : List TypedMsg) :
    (provider (buildMessages hist) = ProviderResult.error →
      generateResponse provider hist = FALLBACK_UNAVAILABLE) ∧
    (provider (buildMessages hist) = ProviderResult.ok none →
      generateResponse provider hist = FALLBACK_EMPTY) ∧
    (provider (buildMessages hist) = ProviderResult.ok (some "") →
      generateResponse provider hist = FALLBACK_EMPTY) ∧
    (∀ c, provider (buildMessages hist) = ProviderResult.ok (some c) → c ≠ "" →
      generateResponse provider hist = jsTrim c) ∧
    (generateResponse provider hist = "" →
      ∃ c, provider (buildMessages hist) = ProviderResult.ok (some c) ∧ c ≠ "" ∧ jsTrim c = "") := by
  refine ⟨fun hp => ?_, fun hp => ?_, fun hp => ?_, fun c hp hc => ?_, fun hempty => ?_⟩
  · simp [generateResponse, hp]
  · simp [generateResponse, hp]
  · simp [generateResponse, hp]
  · simp [generateResponse, hp, hc]
  · rcases hp : provider (buildMessages hist) with c | _
    · cases c with
      | none =>
        rw [generateResponse, hp] at hempty
        exact absurd hempty (by decide)
      | some c =>
        rw [generateResponse, hp] at hempty
        dsimp only at hempty
        by_cases hc : c = ""
        · rw [if_pos hc] at hempty
          exact absurd hempty (by decide)
        · rw [if_neg hc] at hempty
          exact ⟨c, rfl, hc, hempty⟩
    · rw [generateResponse, hp] at hempty
      exact absurd hempty (by decide)

/-- Witness for C1: a provider that throws yields the unavailable fallback. -/
theorem generateResponse_fallback_contract_witness :
    generateResponse errProvider [] = FALLBACK_UNAVAILABLE :=
  (generateResponse_fallback_contract errProvider []).1 rfl

/-- Counterexample to C1 as stated: when the provider succeeds with the
whitespace-only content `" "`, the falsy-content check does not fire, the
content trims to the empty string, and `send` returns a 200 payload whose
reply text is empty — not one of the fallback strings and not non-empty. -/
theorem send_reply_can_be_empty :
    (postChatMessage false wsProvider "fresh" (ChatMessage.mk (some "hi") none)
      (DbState.mk emptyStore [])).1 = RouteResult.ok (ChatResponse.mk "" "fresh") ∧
    (ChatResponse.mk "" "fresh").reply.length = 0 := by
  constructor
  · decide
  · decide

/-- C6: a missing, non-string or (after trimming) empty message fails with the
message-required/empty-message condition, an over-5000-character trimmed
message fails with the length condition, and in all four cases the state `σ`
(store and failure script) is returned untouched and the provider is never
consulted — no storage or network I/O happens. -/
theorem message_validation_precedes_storage
    (provider : List Turn → ProviderResult) (freshId : String) (sid : Option String)
    (σ : DbState) :
    processMessage provider freshId (ChatMessage.mk none sid) σ =
      (Except.error "Message is required and must be a string", σ) ∧
    processMessage provider freshId (ChatMessage.mk (some "") sid) σ =
      (Except.error "Message is required and must be a string", σ) ∧
    (∀ msg : String, msg ≠ "" → (jsTrim msg).length = 0 →
      processMessage provider freshId (ChatMessage.mk (some msg) sid) σ =
        (Except.error "Message cannot be empty", σ)) ∧
    (∀ msg : String, (jsTrim msg).length > MAX_MESSAGE_LENGTH →
      processMessage provider freshId (ChatMessage.mk (some msg) sid) σ =
        (Except.error "Message exceeds maximum length of 5000 characters", σ)) := by
  refine ⟨rfl, by simp [processMessage], fun msg hm1 hm2 => ?_, fun msg hlen => ?_⟩
  · simp [processMessage, hm1, hm2]
  · have hm1 : msg ≠ "" := by
      intro he
      rw [he] at hlen
      exact absurd hlen (by decide)
    have hm2 : ¬((jsTrim msg).length = 0) := by omega
    have hstr : ("Message exceeds maximum length of " ++
        toString MAX_MESSAGE_LENGTH ++ " characters")
        = "Message exceeds maximum length of 5000 characters" := by decide
    simp [processMessage, hm1, hm2, hlen, hstr]

/-- Witness for C6: the whitespace-only message `"   "` fails with the
empty-message condition and leaves the state untouched. -/
theorem message_validation_precedes_storage_witness :
    processMessage errProvider "fresh" (ChatMessage.mk (some "   ") none)
      (DbState.mk emptyStore [])
      = (Except.error "Message cannot be empty", DbState.mk emptyStore []) :=
  (message_validation_precedes_storage errProvider "fresh" none
    (DbState.mk emptyStore [])).2.2.1 "   " (by decide) (by decide)

/-- C3: a well-formed sessionId not matching any stored Conversation makes
`send` succeed with a freshly created, different identity, while the
history-fetch path fails with the not-found condition and leaves the store
unchanged (creates nothing). -/
theorem send_recovers_history_not_found
    (provider : List Turn → ProviderResult) (freshId sid msg : String) (st : Store)
    (h1 : isValidUUID sid = true)
    (h2 : st.conversations.contains sid = false)
    (h3 : freshId ≠ sid)
    (h4 : msg ≠ "") (h5 : (jsTrim msg).length ≠ 0)
    (h6 : ¬((jsTrim msg).length > MAX_MESSAGE_LENGTH)) :
    (∃ (r : ChatResponse) (σf : DbState),
      processMessage provider freshId (ChatMessage.mk (some msg) (some sid))
          (DbState.mk st []) = (Except.ok r, σf) ∧
      r.sessionId = freshId ∧ r.sessionId ≠ sid ∧
      σf.store.conversations = st.conversations ++ [freshId]) ∧
    getConversationHistory sid (DbState.mk st []) =
      (Except.error "Conversation not found", DbState.mk st []) := by
  have hne : sid ≠ "" := isValidUUID_ne_empty h1
  have hval : validateSessionId sid = Except.ok () := by
    simp [validateSessionId, hne, h1]
  have h2m : sid ∉ st.conversations := by simpa using h2
  constructor
  · refine ⟨ChatResponse.mk (generateResponse provider (toTyped (findMessages freshId
        (Store.mk (st.conversations ++ [freshId])
          (st.messages ++ [StoredMsg.mk st.nextId freshId "user" (jsTrim msg)])
          (st.nextId + 1))))) freshId,
      DbState.mk (Store.mk (st.conversations ++ [freshId])
        (st.messages ++ [StoredMsg.mk st.nextId freshId "user" (jsTrim msg),
          StoredMsg.mk (st.nextId + 1) freshId "ai"
            (generateResponse provider (toTyped (findMessages freshId
              (Store.mk (st.conversations ++ [freshId])
                (st.messages ++ [StoredMsg.mk st.nextId freshId "user" (jsTrim msg)])
                (st.nextId + 1)))))])
        (st.nextId + 2)) [], ?_, rfl, h3, rfl⟩
    simp [processMessage, processMessageTry, resolveConversation, wrapStorage,
      dbCall, findConversation, createConversation, createMessage,
      hval, hne, h2m, h4, h5, h6]
  · have hinc : includesSubstr "Conversation not found" "not found" = true := by decide
    simp [getConversationHistory, hval, dbCall, findConversation, h2m,
      wrapHistoryError, hinc]

/-- Witness for C3 at a concrete valid-but-unknown UUID over the empty store. -/
theorem send_recovers_history_not_found_witness :
    (∃ (r : ChatResponse) (σf : DbState),
      processMessage errProvider "fresh"
          (ChatMessage.mk (some "hi") (some "123e4567-e89b-42d3-a456-426614174000"))
          (DbState.mk emptyStore []) = (Except.ok r, σf) ∧
      r.sessionId = "fresh" ∧ r.sessionId ≠ "123e4567-e89b-42d3-a456-426614174000" ∧
      σf.store.conversations = emptyStore.conversations ++ ["fresh"]) ∧
    getConversationHistory "123e4567-e89b-42d3-a456-426614174000" (DbState.mk emptyStore []) =
      (Except.error "Conversation not found", DbState.mk emptyStore []) :=
  send_recovers_history_not_found errProvider "fresh"
    "123e4567-e89b-42d3-a456-426614174000" "hi" emptyStore
    (by decide) (by decide) (by decide) (by decide) (by decide) (by decide)

theorem resolveConversation_script_mono {freshId : String} {sessionId : Option String}
    {σ : DbState} {e : Except String String} {σ1 : DbState}
    (h : resolveConversation freshId sessionId σ = (e, σ1)) :
    ∀ m, some m ∈ σ1.script → some m ∈ σ.script := by
  unfold resolveConversation at h
  cases sessionId with
  | none => exact dbCall_script_mono h
  | some sid =>
    dsimp only at h
    by_cases hs : sid = ""
    · rw [if_pos hs] at h
      exact dbCall_script_mono h
    · rw [if_neg hs] at h
      cases hv : validateSessionId sid with
      | error mv =>
        rw [hv] at h
        dsimp only at h
        obtain ⟨_, h2⟩ := Prod.mk.injEq .. ▸ h
        rw [← h2]
        exact fun m hm => hm
      | ok u =>
        rw [hv] at h
        dsimp only at h
        rcases hfind : dbCall (findConversation sid) σ with ⟨ef, σf⟩
        rw [hfind] at h
        cases ef with
        | error mf =>
          dsimp only at h
          obtain ⟨_, h2⟩ := Prod.mk.injEq .. ▸ h
          rw [← h2]
          exact dbCall_script_mono hfind
        | ok found =>
          dsimp only at h
          by_cases hf : found = true
          · rw [if_pos hf] at h
            obtain ⟨_, h2⟩ := Prod.mk.injEq .. ▸ h
            rw [← h2]
            exact dbCall_script_mono hfind
          · rw [if_neg hf] at h
            intro m hm
            exact dbCall_script_mono hfind m (dbCall_script_mono h m hm)

theorem resolveConversation_error_inv {freshId : String} {sessionId : Option String}
    {σ : DbState} {m : String} {σ1 : DbState}
    (h : resolveConversation freshId sessionId σ = (Except.error m, σ1)) :
    m = "Invalid session ID format" ∨ some m ∈ σ.script := by
  unfold resolveConversation at h
  cases sessionId with
  | none => exact Or.inr (dbCall_error_mem h).1
  | some sid =>
    dsimp only at h
    by_cases hs : sid = ""
    · rw [if_pos hs] at h
      exact Or.inr (dbCall_error_mem h).1
    · rw [if_neg hs] at h
      cases hv : validateSessionId sid with
      | error mv =>
        rw [hv] at h
        dsimp only at h
        have hmv : mv = "Invalid session ID format" := by
          unfold validateSessionId at hv
          rw [if_neg hs] at hv
          by_cases hu : isValidUUID sid = true
          · rw [if_pos hu] at hv
            simp at hv
          · rw [if_neg hu] at hv
            simp only [Except.error.injEq] at hv
            exact hv.symm
        obtain ⟨h1, _⟩ := Prod.mk.injEq .. ▸ h
        simp only [Except.error.injEq] at h1
        exact Or.inl (h1 ▸ hmv)
      | ok u =>
        rw [hv] at h
        dsimp only at h
        rcases hfind : dbCall (findConversation sid) σ with ⟨ef, σf⟩
        rw [hfind] at h
        cases ef with
        | error mf =>
          dsimp only at h
          obtain ⟨h1, _⟩ := Prod.mk.injEq .. ▸ h
          simp only [Except.error.injEq] at h1
          exact Or.inr (h1 ▸ (dbCall_error_mem hfind).1)
        | ok found =>
          dsimp only at h
          by_cases hf : found = true
          · rw [if_pos hf] at h
            simp at h
          · rw [if_neg hf] at h
            exact Or.inr (dbCall_script_mono hfind _ (dbCall_error_mem h).1)

theorem processMessageTry_error_inv {provider : List Turn → ProviderResult}
    {freshId : String} {sessionId : Option String} {t : String} {σ : DbState}
    {m : String} {σ' : DbState}
    (h : processMessageTry provider freshId sessionId t σ = (Except.error m, σ')) :
    m = "Invalid session ID format" ∨ some m ∈ σ.script := by
  unfold processMessageTry at h
  rcases h1 : resolveConversation freshId sessionId σ with ⟨e1, σ1⟩
  rw [h1] at h
  cases e1 with
  | error m1 =>
    dsimp only at h
    obtain ⟨hm, _⟩ := Prod.mk.injEq .. ▸ h
    simp only [Except.error.injEq] at hm
    exact hm ▸ resolveConversation_error_inv h1
  | ok cid =>
    dsimp only at h
    rcases h2 : dbCall (createMessage cid "user" t) σ1 with ⟨e2, σ2⟩
    rw [h2] at h
    cases e2 with
    | error m2 =>
      dsimp only at h
      obtain ⟨hm, _⟩ := Prod.mk.injEq .. ▸ h
      simp only [Except.error.injEq] at hm
      exact Or.inr (hm ▸ resolveConversation_script_mono h1 _ (dbCall_error_mem h2).1)
    | ok u =>
      dsimp only at h
      rcases h3 : dbCall (fun st => (findMessages cid st, st)) σ2 with ⟨e3, σ3⟩
      rw [h3] at h
      cases e3 with
      | error m3 =>
        dsimp only at h
        obtain ⟨hm, _⟩ := Prod.mk.injEq .. ▸ h
        simp only [Except.error.injEq] at hm
        refine Or.inr (hm ▸ resolveConversation_script_mono h1 _
          (dbCall_script_mono h2 _ (dbCall_error_mem h3).1))
      | ok history =>
        dsimp only at h
        rcases h4 : dbCall (createMessage cid "ai"
            (generateResponse provider (toTyped history))) σ3 with ⟨e4, σ4⟩
        rw [h4] at h
        cases e4 with
        | error m4 =>
          dsimp only at h
          obtain ⟨hm, _⟩ := Prod.mk.injEq .. ▸ h
          simp only [Except.error.injEq] at hm
          refine Or.inr (hm ▸ resolveConversation_script_mono h1 _
            (dbCall_script_mono h2 _ (dbCall_script_mono h3 _ (dbCall_error_mem h4).1)))
        | ok u2 =>
          dsimp only at h
          simp at h

theorem wrapStorage_error {x : Except String ChatResponse × DbState} {m : String}
    {σf : DbState} (h : wrapStorage x = (Except.error m, σf)) :
    ∃ m', x = (Except.error m', σf) ∧
      ((rethrowable m' = true ∧ m = m') ∨
       (rethrowable m' = false ∧ m = "Database error. Please try again later.")) := by
  rcases x with ⟨e, σ⟩
  cases e with
  | ok a => simp [wrapStorage] at h
  | error m0 =>
    simp only [wrapStorage] at h
    by_cases hr : rethrowable m0 = true
    · rw [if_pos hr] at h
      simp only [Prod.mk.injEq, Except.error.injEq] at h
      exact ⟨m0, by rw [h.2], Or.inl ⟨hr, h.1.symm⟩⟩
    · rw [if_neg hr] at h
      simp only [Prod.mk.injEq, Except.error.injEq] at h
      exact ⟨m0, by rw [h.2], Or.inr ⟨by simpa using hr, h.1.symm⟩⟩

/-- C7 (amended): provided no storage failure message contains one of the five
re-throw substrings (`required`, `cannot be empty`, `exceeds maximum`,
`API key`, `Rate limit`), every error surfaced by `send` is one of the three
step-1 validation messages or the single opaque storage-failure message. -/
theorem storage_errors_wrapped_generic
    {provider : List Turn → ProviderResult} {freshId : String} {input : ChatMessage}
    {σ : DbState}
    (hscript : ∀ m : String, some m ∈ σ.script → rethrowable m = false) :
    ∀ m σf, processMessage provider freshId input σ = (Except.error m, σf) →
      m = "Message is required and must be a string" ∨
      m = "Message cannot be empty" ∨
      m = "Message exceeds maximum length of 5000 characters" ∨
      m = "Database error. Please try again later." := by
  intro m σf h
  rcases input with ⟨imsg, isid⟩
  cases imsg with
  | none =>
    simp only [processMessage, Prod.mk.injEq, Except.error.injEq] at h
    exact Or.inl h.1.symm
  | some msg =>
    simp only [processMessage] at h
    by_cases hm0 : msg = ""
    · rw [if_pos hm0] at h
      simp only [Prod.mk.injEq, Except.error.injEq] at h
      exact Or.inl h.1.symm
    · rw [if_neg hm0] at h
      by_cases hm1 : (jsTrim msg).length = 0
      · rw [if_pos hm1] at h
        simp only [Prod.mk.injEq, Except.error.injEq] at h
        exact Or.inr (Or.inl h.1.symm)
      · rw [if_neg hm1] at h
        by_cases hm2 : (jsTrim msg).length > MAX_MESSAGE_LENGTH
        · rw [if_pos hm2] at h
          simp only [Prod.mk.injEq, Except.error.injEq] at h
          refine Or.inr (Or.inr (Or.inl ?_))
          rw [← h.1]
          decide
        · rw [if_neg hm2] at h
          obtain ⟨m', hx, hcases⟩ := wrapStorage_error h
          have hsrc := processMessageTry_error_inv hx
          rcases hcases with ⟨hre, hm⟩ | ⟨_, hm⟩
          · rcases hsrc with hfmt | hmem
            · rw [hfmt] at hre
              exact absurd hre (by decide)
            · rw [hscript m' hmem] at hre
              exact absurd hre (by simp)
          · exact Or.inr (Or.inr (Or.inr hm))

/-- Witness for C7: a storage failure `"boom"` (no re-throw substring) during
conversation creation surfaces as the opaque storage message. -/
theorem storage_errors_wrapped_generic_witness :
    "Database error. Please try again later." = "Message is required and must be a string" ∨
    "Database error. Please try again later." = "Message cannot be empty" ∨
    "Database error. Please try again later." = "Message exceeds maximum length of 5000 characters" ∨
    "Database error. Please try again later." = "Database error. Please try again later." :=
  @storage_errors_wrapped_generic errProvider "fresh" (ChatMessage.mk (some "hi") none)
    (DbState.mk emptyStore [some "boom"])
    (by intro m hm; simp at hm; subst hm; decide)
    "Database error. Please try again later." (DbState.mk emptyStore []) (by rfl)

/-- Counterexample to C7 as stated: a Record Store failure whose message
contains `"required"` is re-thrown verbatim by the catch block, so the raw
storage error detail — not the opaque storage-failure condition — reaches the
caller. -/
theorem storage_error_detail_leaks :
    processMessage errProvider "fresh" (ChatMessage.mk (some "hi") none)
      (DbState.mk emptyStore [some "Database connection string required"])
      = (Except.error "Database connection string required", DbState.mk emptyStore []) ∧
    "Database connection string required" ≠ "Database error. Please try again later." := by
  constructor
  · rfl
  · decide

/-- C4 (amended): a present, non-empty sessionId that fails UUID validation
makes `send` fail with status 400 carrying the invalid-format condition, the
state untouched — not replaced silently and not classified as a storage
error.  (An empty-string sessionId is instead treated as absent; see the
counterexample.) -/
theorem malformed_sessionId_validation_failure
    (isProduction : Bool) (provider : List Turn → ProviderResult)
    (freshId msg sid : String) (σ : DbState)
    (h1 : sid ≠ "") (h2 : isValidUUID sid = false) :
    postChatMessage isProduction provider freshId (ChatMessage.mk (some msg) (some sid)) σ =
      (RouteResult.err 400
        (sanitizeErrorMessage (some "Invalid session ID format") isProduction), σ) ∧
    sanitizeErrorMessage (some "Invalid session ID format") false = "Invalid session ID format" ∧
    sanitizeErrorMessage (some "Invalid session ID format") isProduction ≠
      "Database error. Please try again later." := by
  have hstat : postMessageStatus "Invalid session ID format" = 400 := by decide
  refine ⟨?_, rfl, ?_⟩
  · simp [postChatMessage, validateSessionId, h1, h2, hstat]
  · cases isProduction <;> decide

/-- Witness for C4 at the malformed sessionId `"abc"` in development mode. -/
theorem malformed_sessionId_validation_failure_witness :
    postChatMessage false errProvider "fresh"
        (ChatMessage.mk (some "hi") (some "abc")) (DbState.mk emptyStore []) =
      (RouteResult.err 400
        (sanitizeErrorMessage (some "Invalid session ID format") false),
        DbState.mk emptyStore []) ∧
    sanitizeErrorMessage (some "Invalid session ID format") false = "Invalid session ID format" ∧
    sanitizeErrorMessage (some "Invalid session ID format") false ≠
      "Database error. Please try again later." :=
  malformed_sessionId_validation_failure false errProvider "fresh" "hi" "abc"
    (DbState.mk emptyStore []) (by decide) (by decide)

/-- Counterexample to C4 as stated: the empty string is a present sessionId
that fails UUID validation, yet `send` succeeds (it is treated as absent and
silently replaced by a fresh conversation) instead of failing with a
validation condition. -/
theorem empty_sessionId_not_rejected :
    isValidUUID "" = false ∧
    (postChatMessage false okProvider "fresh" (ChatMessage.mk (some "hi") (some ""))
      (DbState.mk emptyStore [])).1 = RouteResult.ok (ChatResponse.mk "Hello!" "fresh") := by
  exact ⟨by decide, by decide⟩

/-- C8: the per-conversation admission layer has a 15-minute window with cap
20, keys by the body conversation identity when present (falling back to the
origin IP when absent), and skips GET (history-fetch) requests; the
general-API layer has a 15-minute window with cap 100, guards every route,
and is evaluated ahead of the daily, per-origin and per-conversation layers. -/
theorem rate_limit_layers_config :
    sessionLimiter.windowMs = 15 * 60 * 1000 ∧ sessionLimiter.max = 20 ∧
    (∀ (req : RequestInfo) (s : String), req.bodySessionId = some s → s ≠ "" →
      sessionLimiter.keyGenerator req = s) ∧
    (∀ req : RequestInfo, req.bodySessionId = none → req.ip ≠ "" →
      sessionLimiter.keyGenerator req = req.ip) ∧
    (∀ req : RequestInfo, sessionLimiter.skip req = true ↔ req.method = "GET") ∧
    apiLimiter.windowMs = 15 * 60 * 1000 ∧ apiLimiter.max = 100 ∧
    chatMessagePipeline = [apiLimiter, dailyLimiter, chatLimiter, sessionLimiter] ∧
    chatHistoryPipeline = [apiLimiter, dailyLimiter, chatLimiter, sessionLimiter] ∧
    healthPipeline = [apiLimiter] := by
  refine ⟨rfl, rfl, ?_, ?_, ?_, rfl, rfl, rfl, rfl, rfl⟩
  · intro req s hb hs
    simp [sessionLimiter, jsOrString, hb, hs]
  · intro req hb hip
    simp [sessionLimiter, jsOrString, hb, hip]
  · intro req
    simp [sessionLimiter, beq_iff_eq]

/-- Witness for C8: the session layer keys a POST by its body sessionId and
falls back to the IP when the body has none. -/
theorem rate_limit_layers_config_witness :
    sessionLimiter.keyGenerator (RequestInfo.mk "POST" "1.2.3.4" (some "sess-1")) = "sess-1" ∧
    sessionLimiter.keyGenerator (RequestInfo.mk "POST" "1.2.3.4" none) = "1.2.3.4" :=
  ⟨rate_limit_layers_config.2.2.1 (RequestInfo.mk "POST" "1.2.3.4" (some "sess-1"))
      "sess-1" rfl (by decide),
   rate_limit_layers_config.2.2.2.1 (RequestInfo.mk "POST" "1.2.3.4" none) rfl (by decide)⟩

/-- C10 (amended): in production, `sanitizeErrorMessage` maps any error whose
lowercased message contains `invalid` but none of `not found`,
`conversation not found`, `required`, `cannot be empty` to
`"Service configuration error"`; in particular a malformed-session request in
production receives that configuration-error body (status 404 on the history
route, 400 on the message route) instead of the format-validation message. -/
theorem sanitize_invalid_maps_config_error
    (em : String)
    (h1 : includesSubstr (jsLower em) "invalid" = true)
    (h2 : includesSubstr (jsLower em) "not found" = false)
    (h2b : includesSubstr (jsLower em) "conversation not found" = false)
    (h3 : includesSubstr (jsLower em) "required" = false)
    (h4 : includesSubstr (jsLower em) "cannot be empty" = false) :
    sanitizeErrorMessage (some em) true = "Service configuration error" ∧
    (∀ σ : DbState, getChatHistory true "not-a-uuid" σ =
      (RouteResult.err 404 "Service configuration error", σ)) ∧
    (∀ (provider : List Turn → ProviderResult) (freshId msg : String) (σ : DbState),
      postChatMessage true provider freshId (ChatMessage.mk (some msg) (some "not-a-uuid")) σ =
        (RouteResult.err 400 "Service configuration error", σ)) := by
  refine ⟨?_, fun σ => rfl, fun provider freshId msg σ => rfl⟩
  simp [sanitizeErrorMessage, h1, h2, h2b, h3, h4]

/-- Witness for C10 at the concrete message `"Invalid session ID format"`. -/
theorem sanitize_invalid_maps_config_error_witness :
    sanitizeErrorMessage (some "Invalid session ID format") true
      = "Service configuration error" :=
  (sanitize_invalid_maps_config_error "Invalid session ID format"
    (by decide) (by decide) (by decide) (by decide) (by decide)).1

/-- Counterexample to C10 as stated: `"Invalid input cannot be empty"`
contains `invalid` and neither `not found` nor `required`, yet production
sanitization keeps it verbatim (the `cannot be empty` validation branch wins)
instead of mapping it to the configuration-error string. -/
theorem sanitize_invalid_cannot_be_empty_kept :
    includesSubstr (jsLower "Invalid input cannot be empty") "invalid" = true ∧
    includesSubstr (jsLower "Invalid input cannot be empty") "not found" = false ∧
    includesSubstr (jsLower "Invalid input cannot be empty") "required" = false ∧
    sanitizeErrorMessage (some "Invalid input cannot be empty") true
      = "Invalid input cannot be empty" ∧
    "Invalid input cannot be empty" ≠ "Service configuration error" :=
  ⟨by decide, by decide, by decide, by decide, by decide⟩

end SpurChat
